import Mathlib

set_option maxRecDepth 8000

/-!
Verification development for an Intel 8080-class emulator.

The development shallowly embeds two revisions of the CPU core that are
both present in the repository history:

* namespace `Cpu0` — the revision in `src/emulator/src/cpu.rs` (arithmetic
  primitives, stack primitives, the 65535-entry memory buffer, flag byte
  with its reserved-bit assertion).  Rust panics (array index out of
  bounds, failed assertions) are modelled by `Option`, `none` being a
  panic.  Machine integers are `Nat` with explicit `% 2^w` where the
  source wraps, and `Int` where the source computes in `i16`.

* namespace `Cpu1` — the current revision: the dispatcher in
  `src/emulator/src/cpu/dispatcher.rs` together with the primitives of the
  current `cpu.rs` it imports via `use super::*`.  That `cpu.rs` file is
  not part of the snapshot (only its tests, its dispatcher and its callers
  are), so those primitives are modelled from the spec, as marked on each
  definition.

The hardware I/O module `src/emulator/src/hardware.rs` is embedded at top
level.
-/

namespace Emu8080

/-- Flag names, from the `Flag` enum of `cpu.rs` (S, Z, AC, P, CY). -/
inductive Flag where
  | S
  | Z
  | AC
  | P
  | CY
deriving DecidableEq

/-- Number of set bits among the low 8 bits, the `u8::count_ones` of the
result byte used by the parity check. -/
def count_ones8 (n : Nat) : Nat :=
  n % 2 + n / 2 % 2 + n / 4 % 2 + n / 8 % 2 +
  n / 16 % 2 + n / 32 % 2 + n / 64 % 2 + n / 128 % 2

/-- Low byte of a signed 16-bit intermediate: the two's-complement value of
`result & 0xff` cast to `u8` in the source. -/
def lowByte (r : Int) : Nat := (r % 256).toNat

/-- Reinterpretation of a `u16` bit pattern as an `i16` (`result as i16`
in `cpu.rs`). -/
def u16_as_i16 (v : Nat) : Int :=
  if v % 65536 < 32768 then ((v % 65536 : Nat) : Int)
  else ((v % 65536 : Nat) : Int) - 65536

/-- Function `pair_registers` of `cpu.rs`: `(reg_1 as u16) << 8 | reg_2`. -/
def pair_registers (reg_1 reg_2 : Nat) : Nat := (reg_1 <<< 8) ||| reg_2

/-- Function `split_register_pair` of `cpu.rs`: high byte and low byte of a
16-bit register pair. -/
def split_register_pair (reg_pair : Nat) : Nat × Nat :=
  ((reg_pair >>> 8) % 256, reg_pair &&& 0xff)

/-- Function `jmp` of `cpu.rs`: on no condition or a true condition,
compose the little-endian operand bytes into the target address; on a
false condition return nothing. -/
def jmp (address_bytes : Nat × Nat) (condition : Option Bool) : Option Nat :=
  match condition with
  | none => some (pair_registers address_bytes.2 address_bytes.1)
  | some true => some (pair_registers address_bytes.2 address_bytes.1)
  | some false => none

/-- Function `inx` of `cpu.rs`: 16-bit increment of a register pair,
wrapping at the 16-bit boundary. -/
def inx (reg_pair : Nat) : Nat × Nat :=
  split_register_pair ((reg_pair + 1) % 65536)

/-- Function `dcx` of `cpu.rs`: 16-bit decrement of a register pair,
wrapping at the 16-bit boundary (`(pair as i32 - 1) & 0xffff`). -/
def dcx (reg_pair : Nat) : Nat × Nat :=
  split_register_pair ((reg_pair + 65535) % 65536)

/-- Method `Flags::check_flag` (identical in both revisions): 1 when the
flag bit is set in the flag byte, 0 otherwise. -/
def check_flag (flags : Nat) (f : Flag) : Nat :=
  match f with
  | Flag.S => if flags &&& 0b10000000 = 0b10000000 then 1 else 0
  | Flag.Z => if flags &&& 0b01000000 = 0b01000000 then 1 else 0
  | Flag.AC => if flags &&& 0b00010000 = 0b00010000 then 1 else 0
  | Flag.P => if flags &&& 0b00000100 = 0b00000100 then 1 else 0
  | Flag.CY => if flags &&& 0b00000001 = 0b00000001 then 1 else 0

namespace Cpu0

/-- Memory of `cpu.rs`: `held_memory: [u8; 0xffff]`, a 65535-entry byte
buffer (the struct comment says the 8080 should have 65536 addresses).
Indexing past the buffer is a Rust panic, modelled by `Option` in
`read_at` and `write_at`. -/
structure Memory where
  held_memory : Nat → Nat

/-- Memory buffer created zero-filled (`Memory::init`). -/
def Memory.init : Memory := ⟨fun _ => 0⟩

/-- Method `Memory::read_at`: index the 65535-entry buffer; out of bounds
is a panic (`none`). -/
def Memory.read_at (m : Memory) (addr : Nat) : Option Nat :=
  if addr < 0xffff then some (m.held_memory addr) else none

/-- Method `Memory::write_at`: store a byte in the 65535-entry buffer; out
of bounds is a panic (`none`). -/
def Memory.write_at (m : Memory) (addr byte : Nat) : Option Memory :=
  if addr < 0xffff then
    some ⟨fun x => if x = addr then byte % 256 else m.held_memory x⟩
  else none

/-- Method `Flags::set_flag` of `cpu.rs`: or in the flag's mask, then
assert that the three reserved bits are not all set
(`assert_ne!(flags << 5, 0b11100000)`); a failed assertion is a panic. -/
def set_flag (flags : Nat) (f : Flag) : Option Nat :=
  let nf :=
    match f with
    | Flag.S => flags ||| 0b10000000
    | Flag.Z => flags ||| 0b01000000
    | Flag.AC => flags ||| 0b00010000
    | Flag.P => flags ||| 0b00000100
    | Flag.CY => flags ||| 0b00000001
  if (nf <<< 5) % 256 = 0b11100000 then none else some nf

/-- Method `Flags::clear_flag` of `cpu.rs`: mask the flag's bit off, with
the same reserved-bit assertion. -/
def clear_flag (flags : Nat) (f : Flag) : Option Nat :=
  let nf :=
    match f with
    | Flag.S => flags &&& 0b01111111
    | Flag.Z => flags &&& 0b10111111
    | Flag.AC => flags &&& 0b11101111
    | Flag.P => flags &&& 0b11111011
    | Flag.CY => flags &&& 0b11111110
  if (nf <<< 5) % 256 = 0b11100000 then none else some nf

/-- Function `set_flags_from_operation` of `cpu.rs`: recompute Z, S, P and
CY from the signed 16-bit intermediate.  CY is set exactly when the
intermediate exceeds 255 (`result > u8::MAX as i16`). -/
def set_flags_from_operation (result : Int) (flags : Nat) : Option Nat :=
  match (if result = 0 then set_flag flags Flag.Z else clear_flag flags Flag.Z) with
  | none => none
  | some f1 =>
    match (if result < 0 then set_flag f1 Flag.S else clear_flag f1 Flag.S) with
    | none => none
    | some f2 =>
      match (if count_ones8 (lowByte result) % 2 = 0 then set_flag f2 Flag.P
             else clear_flag f2 Flag.P) with
      | none => none
      | some f3 =>
        if result > 255 then set_flag f3 Flag.CY else clear_flag f3 Flag.CY

/-- Function `add` of `cpu.rs`: sum in `u16`, flags from the intermediate
reinterpreted as `i16`, result truncated to a byte. -/
def add (reg_1 reg_2 flags : Nat) : Option (Nat × Nat) :=
  let result := (reg_1 + reg_2) % 65536
  match set_flags_from_operation (u16_as_i16 result) flags with
  | none => none
  | some f => some (result % 256, f)

/-- Function `sub` of `cpu.rs`: difference in `i16`, flags from the signed
intermediate, result is the low byte (`(result & 0xff) as u8`). -/
def sub (reg_1 reg_2 flags : Nat) : Option (Nat × Nat) :=
  let result : Int := (reg_1 : Int) - (reg_2 : Int)
  match set_flags_from_operation result flags with
  | none => none
  | some f => some (lowByte result, f)

/-- Function `inr` of `cpu.rs`: record the carry flag, add 1 through the
general add, then restore the recorded carry (the `match` on the recorded
carry panics on any value other than 0 or 1). -/
def inr (reg flags : Nat) : Option (Nat × Nat) :=
  let carry := check_flag flags Flag.CY
  match add reg 1 flags with
  | none => none
  | some rf =>
    match (if carry = 1 then set_flag rf.2 Flag.CY
           else if carry = 0 then clear_flag rf.2 Flag.CY
           else none) with
    | none => none
    | some f => some (rf.1, f)

/-- Function `dcr` of `cpu.rs`: record the carry flag, subtract 1 through
the general sub, then restore the recorded carry. -/
def dcr (reg flags : Nat) : Option (Nat × Nat) :=
  let carry := check_flag flags Flag.CY
  match sub reg 1 flags with
  | none => none
  | some rf =>
    match (if carry = 1 then set_flag rf.2 Flag.CY
           else if carry = 0 then clear_flag rf.2 Flag.CY
           else none) with
    | none => none
    | some f => some (rf.1, f)

/-- Function `push` of `cpu.rs`: write the first byte at `sp`, the second
at `sp - 1`, then decrement `sp` by 2 (16-bit wrapping). -/
def push (data_bytes : Nat × Nat) (sp : Nat) (m : Memory) : Option (Nat × Memory) :=
  match m.write_at sp data_bytes.1 with
  | none => none
  | some m1 =>
    match m1.write_at ((sp + 65535) % 65536) data_bytes.2 with
    | none => none
    | some m2 => some ((sp + 65534) % 65536, m2)

/-- Function `pop` of `cpu.rs`: read the bytes back from `sp + 2` and
`sp + 1`, zero the two cells, then increment `sp` by 2. -/
def pop (sp : Nat) (m : Memory) : Option ((Nat × Nat) × Nat × Memory) :=
  match m.read_at ((sp + 2) % 65536) with
  | none => none
  | some byte_1 =>
    match m.read_at ((sp + 1) % 65536) with
    | none => none
    | some byte_2 =>
      match m.write_at ((sp + 1) % 65536) 0 with
      | none => none
      | some m1 =>
        match m1.write_at ((sp + 2) % 65536) 0 with
        | none => none
        | some m2 => some ((byte_1, byte_2), (sp + 2) % 65536, m2)

end Cpu0

/-- Port names of `hardware.rs` (`enum Port`). -/
inductive Port where
  | INP1
  | INP2
  | SHFTIN
  | SHFTAMNT
  | SOUND1
  | SHFTDATA
  | SOUND2
  | WATCHDOG
deriving DecidableEq

/-- Struct `Ports` of `hardware.rs`: the device registers. -/
structure Ports where
  input_1 : Nat
  input_2 : Nat
  shift_result : Nat
  shift_amount : Nat
  sound_1 : Nat
  shift_data : Nat
  sound_2 : Nat
  watchdog : Nat

/-- Method `Ports::new`: all port bytes zero. -/
def Ports.new : Ports :=
  ⟨0, 0, 0, 0, 0, 0, 0, 0⟩

/-- Struct `Hardware` of `hardware.rs`: a 16-bit shift register plus the
port bytes. -/
structure Hardware where
  shift_register : Nat
  ports : Ports

/-- Method `Hardware::init`: zero shift register, default ports. -/
def Hardware.init : Hardware :=
  ⟨0, Ports.new⟩

/-- Function `write_port` of `hardware.rs`: store a byte in a write port;
writing the shift-data port shifts the byte into the high 8 bits of the
shift register (`(value << 8) | (register >> 8)`).  Writing a read port is
a panic (`none`). -/
def write_port (write_value : Nat) (port : Port) (hardware : Hardware) : Option Hardware :=
  match port with
  | Port.SHFTAMNT => some { hardware with ports := { hardware.ports with shift_amount := write_value } }
  | Port.SOUND1 => some { hardware with ports := { hardware.ports with sound_1 := write_value } }
  | Port.SHFTDATA =>
      some { hardware with shift_register := ((write_value <<< 8) ||| (hardware.shift_register >>> 8)) % 65536 }
  | Port.SOUND2 => some { hardware with ports := { hardware.ports with sound_2 := write_value } }
  | Port.WATCHDOG => some { hardware with ports := { hardware.ports with watchdog := write_value } }
  | _ => none

/-- Function `read_port` of `hardware.rs`: read an input port verbatim;
for the shift-result port the offset is computed as
`shift_amount >> 5` and the returned byte is
`(shift_register >> (8 - offset)) as u8`.  Reading a write port is a
panic (`none`). -/
def read_port (port : Port) (hardware : Hardware) : Option Nat :=
  match port with
  | Port.INP1 => some hardware.ports.input_1
  | Port.INP2 => some hardware.ports.input_2
  | Port.SHFTIN =>
      let left_offset := hardware.ports.shift_amount >>> 5
      let right_offset := 8 - left_offset
      some ((hardware.shift_register >>> right_offset) % 256)
  | _ => none

/-- Function `handle_io` of `hardware.rs`: `OUT` (0xd3) decodes port bytes
2 to 6 and writes the accumulator, returning no value; `IN` (0xdb) decodes
port bytes 1 to 3 and returns the port's value; any other port byte, and
any other opcode, is a panic (`none`).  The Rust `match` arms on byte
literals are translated as an equality chain. -/
def handle_io (op_code : Nat) (hardware : Hardware) (port_byte reg_a : Nat) :
    Option (Option Nat × Hardware) :=
  if op_code = 0xd3 then
    let port :=
      if port_byte = 2 then some Port.SHFTAMNT
      else if port_byte = 3 then some Port.SOUND1
      else if port_byte = 4 then some Port.SHFTDATA
      else if port_byte = 5 then some Port.SOUND2
      else if port_byte = 6 then some Port.WATCHDOG
      else none
    match port with
    | none => none
    | some p =>
      match write_port reg_a p hardware with
      | none => none
      | some hw => some (none, hw)
  else if op_code = 0xdb then
    let port :=
      if port_byte = 0 then none
      else if port_byte = 1 then some Port.INP1
      else if port_byte = 2 then some Port.INP2
      else if port_byte = 3 then some Port.SHFTIN
      else none
    match port with
    | none => none
    | some p =>
      match read_port p hardware with
      | none => none
      | some v => some (some v, hardware)
  else none

namespace Cpu1

/-- Modelled from the spec: the Memory of the current `cpu.rs` (file not
in the snapshot).  Spec section 3: a fixed-size 64K byte buffer, all
addresses 0..65535 valid, created zero-filled; the current revision's own
test `test_memory_rw` reads and writes through the full range. -/
structure Memory where
  held_memory : Nat → Nat

/-- Modelled from the spec: zero-filled memory at machine init. -/
def Memory.init : Memory := ⟨fun _ => 0⟩

/-- Modelled from the spec: `read_at` on the 64K buffer; the `u16` address
is reduced modulo 65536. -/
def Memory.read_at (m : Memory) (addr : Nat) : Nat :=
  m.held_memory (addr % 65536)

/-- Modelled from the spec: `write_at` on the 64K buffer; stores the byte
at the `u16` address. -/
def Memory.write_at (m : Memory) (addr byte : Nat) : Memory :=
  ⟨fun x => if x = addr % 65536 then byte % 256 else m.held_memory x⟩

/-- Modelled from the spec: `Flags::set_flag` of the current `cpu.rs`.
Spec section 9 has the reserved-bit invariant hold by construction, so
the set operation is a plain bit-or. -/
def set_flag (flags : Nat) (f : Flag) : Nat :=
  match f with
  | Flag.S => flags ||| 0b10000000
  | Flag.Z => flags ||| 0b01000000
  | Flag.AC => flags ||| 0b00010000
  | Flag.P => flags ||| 0b00000100
  | Flag.CY => flags ||| 0b00000001

/-- Modelled from the spec: `Flags::clear_flag` of the current `cpu.rs`,
a plain bit-mask. -/
def clear_flag (flags : Nat) (f : Flag) : Nat :=
  match f with
  | Flag.S => flags &&& 0b01111111
  | Flag.Z => flags &&& 0b10111111
  | Flag.AC => flags &&& 0b11101111
  | Flag.P => flags &&& 0b11111011
  | Flag.CY => flags &&& 0b11111110

/-- Modelled from the spec: `set_flags_from_operation` of the current
`cpu.rs`.  Spec section 4.1: Z when the result is zero, S when the signed
intermediate is negative, P when the low byte has an even number of set
bits, CY when the intermediate exceeds 255 or, for subtract/compare, when
the minuend is smaller (intermediate negative).  The current revision's
test `test_operation_flag_setting` fixes the same rule
(`set_flags_from_operation(-2)` yields S and CY set). -/
def set_flags_from_operation (result : Int) (flags : Nat) : Nat :=
  let f1 := if result = 0 then set_flag flags Flag.Z else clear_flag flags Flag.Z
  let f2 := if result < 0 then set_flag f1 Flag.S else clear_flag f1 Flag.S
  let f3 := if count_ones8 (lowByte result) % 2 = 0 then set_flag f2 Flag.P
            else clear_flag f2 Flag.P
  if result > 255 ∨ result < 0 then set_flag f3 Flag.CY else clear_flag f3 Flag.CY

/-- Modelled from the spec: `add` of the current `cpu.rs` — sum the bytes
in a wider integer, recompute the flags from the intermediate, return the
low byte. -/
def add (reg_1 reg_2 flags : Nat) : Nat × Nat :=
  let result := reg_1 + reg_2
  (result % 256, set_flags_from_operation (result : Int) flags)

/-- Modelled from the spec: `adc` of the current `cpu.rs` — record the
carry flag, run the general add, add the recorded carry to the returned
byte. -/
def adc (reg_1 reg_2 flags : Nat) : Nat × Nat :=
  let carry := check_flag flags Flag.CY
  let rf := add reg_1 reg_2 flags
  ((rf.1 + carry) % 256, rf.2)

/-- Modelled from the spec: `sub` of the current `cpu.rs` — difference as
a signed intermediate, flags recomputed from it (CY set on borrow), result
is the low byte. -/
def sub (reg_1 reg_2 flags : Nat) : Nat × Nat :=
  let result : Int := (reg_1 : Int) - (reg_2 : Int)
  (lowByte result, set_flags_from_operation result flags)

/-- Modelled from the spec: `sbb` of the current `cpu.rs` — record the
carry flag, run the general sub, subtract the recorded carry from the
returned byte. -/
def sbb (reg_1 reg_2 flags : Nat) : Nat × Nat :=
  let carry := check_flag flags Flag.CY
  let rf := sub reg_1 reg_2 flags
  (lowByte ((rf.1 : Int) - (carry : Int)), rf.2)

/-- Modelled from the spec: `inr` of the current `cpu.rs` — route through
add, then restore the recorded pre-operation carry (spec section 4.1:
increment never affects Carry). -/
def inr (reg flags : Nat) : Nat × Nat :=
  let carry := check_flag flags Flag.CY
  let rf := add reg 1 flags
  (rf.1, if carry = 1 then set_flag rf.2 Flag.CY else clear_flag rf.2 Flag.CY)

/-- Modelled from the spec: `dcr` of the current `cpu.rs` — route through
sub, then restore the recorded pre-operation carry. -/
def dcr (reg flags : Nat) : Nat × Nat :=
  let carry := check_flag flags Flag.CY
  let rf := sub reg 1 flags
  (rf.1, if carry = 1 then set_flag rf.2 Flag.CY else clear_flag rf.2 Flag.CY)

/-- Modelled from the spec: `dad` of the current `cpu.rs` — 16-bit add
widened to 32 bits, sets or clears Carry only (spec section 4.1). -/
def dad (hl_pair reg_pair flags : Nat) : (Nat × Nat) × Nat :=
  let result := hl_pair + reg_pair
  let f := if result > 65535 then set_flag flags Flag.CY else clear_flag flags Flag.CY
  (split_register_pair (result % 65536), f)

/-- Modelled from the spec: logical `and` of the current `cpu.rs` —
bitwise result through the shared flag rule, with the 8080 quirk that a
result of exactly `0b1000_0000` force-sets Sign (spec section 4.1; the
current revision's test `test_logical_operations` checks it). -/
def and (reg_1 reg_2 flags : Nat) : Nat × Nat :=
  let result := reg_1 &&& reg_2
  let f := set_flags_from_operation (result : Int) flags
  (result, if result = 0b10000000 then set_flag f Flag.S else f)

/-- Modelled from the spec: logical `or` of the current `cpu.rs`, same
flag rule and Sign quirk as `and`. -/
def or (reg_1 reg_2 flags : Nat) : Nat × Nat :=
  let result := reg_1 ||| reg_2
  let f := set_flags_from_operation (result : Int) flags
  (result, if result = 0b10000000 then set_flag f Flag.S else f)

/-- Modelled from the spec: logical `xor` of the current `cpu.rs`, same
flag rule and Sign quirk as `and`. -/
def xor (reg_1 reg_2 flags : Nat) : Nat × Nat :=
  let result := reg_1 ^^^ reg_2
  let f := set_flags_from_operation (result : Int) flags
  (result, if result = 0b10000000 then set_flag f Flag.S else f)

/-- Modelled from the spec: `cmp` of the current `cpu.rs` — identical to
sub but the result byte is discarded; only the flags are returned. -/
def cmp (reg_1 reg_2 flags : Nat) : Nat :=
  (sub reg_1 reg_2 flags).2

/-- Modelled from the spec: `rotate_left` of the current `cpu.rs` — the
top bit rotates out into Carry; in through-carry mode the previous Carry
enters the vacated bit, otherwise the rotated-out bit wraps around (spec
section 4.1; values fixed by `test_logical_operations`). -/
def rotate_left (value : Nat) (through_carry : Bool) (flags : Nat) : Nat × Nat :=
  let top := value / 128 % 2
  let carry_in := if through_carry then check_flag flags Flag.CY else top
  let result := ((value <<< 1) ||| carry_in) % 256
  (result, if top = 1 then set_flag flags Flag.CY else clear_flag flags Flag.CY)

/-- Modelled from the spec: `rotate_right` of the current `cpu.rs` — the
bottom bit rotates out into Carry; in through-carry mode the previous
Carry enters the vacated top bit. -/
def rotate_right (value : Nat) (through_carry : Bool) (flags : Nat) : Nat × Nat :=
  let bottom := value % 2
  let carry_in := if through_carry then check_flag flags Flag.CY else bottom
  let result := ((value >>> 1) ||| (carry_in <<< 7)) % 256
  (result, if bottom = 1 then set_flag flags Flag.CY else clear_flag flags Flag.CY)

/-- Modelled from the spec: `daa` of the current `cpu.rs`.  The spec does
not specify decimal adjust (auxiliary carry is explicitly out of scope and
the end-to-end test patches the ROM to skip its DAA test), so it is
modelled as leaving the accumulator and flags unchanged.  No claim
concerns opcode 0x27. -/
def daa (value flags : Nat) : Nat × Nat :=
  (value, flags)

/-- Modelled from the spec: `swap_registers` of the current `cpu.rs` —
exchange two register bytes (used in-place by `XCHG`, spec section
4.3). -/
def swap_registers (reg_1 reg_2 : Nat) : Nat × Nat :=
  (reg_2, reg_1)

/-- Modelled from the spec: `push` of the current `cpu.rs`.  Spec section
4.2: writes the pair at `sp - 1` and `sp - 2` (high byte nearer the top)
and decrements `sp` by 2; cell placement fixed by the current revision's
`test_push_pop`. -/
def push (data_bytes : Nat × Nat) (sp : Nat) (m : Memory) : Nat × Memory :=
  let m1 := m.write_at ((sp + 65535) % 65536) data_bytes.1
  let m2 := m1.write_at ((sp + 65534) % 65536) data_bytes.2
  ((sp + 65534) % 65536, m2)

/-- Modelled from the spec: `pop` of the current `cpu.rs` — reads the pair
back in the complementary order, zeroes the vacated cells, increments `sp`
by 2 (spec section 4.2, cells fixed by `test_push_pop`). -/
def pop (sp : Nat) (m : Memory) : (Nat × Nat) × Nat × Memory :=
  let byte_1 := m.read_at ((sp + 1) % 65536)
  let byte_2 := m.read_at sp
  let m1 := m.write_at ((sp + 1) % 65536) 0
  let m2 := m1.write_at sp 0
  ((byte_1, byte_2), (sp + 2) % 65536, m2)

/-- Modelled from the spec: `call` of the current `cpu.rs` — compute the
conditional jump; only if it will jump, first push the return address
(split into high and low byte) onto the stack (spec section 4.2). -/
def call (address_bytes : Nat × Nat) (condition : Option Bool) (sp : Nat)
    (m : Memory) (return_address : Nat) : Option Nat × Nat × Memory :=
  match jmp address_bytes condition with
  | some a =>
      let rb := split_register_pair return_address
      let sm := push (rb.1, rb.2) sp m
      (some a, sm.1, sm.2)
  | none => (none, sp, m)

/-- Modelled from the spec: `ret` of the current `cpu.rs` — conditionally
pop and return the previously pushed address (spec section 4.2). -/
def ret (condition : Option Bool) (sp : Nat) (m : Memory) :
    Option Nat × Nat × Memory :=
  match condition with
  | some false => (none, sp, m)
  | _ =>
      let pr := pop sp m
      (some (pair_registers pr.1.1 pr.1.2), pr.2.1, pr.2.2)

/-- Modelled from the spec: the `Cpu` struct of the current `cpu.rs` —
seven registers, stack pointer and program counter as bare 16-bit cells,
the memory, the flag byte and the interrupt-enable boolean (spec section
3). -/
structure Cpu where
  a : Nat
  b : Nat
  c : Nat
  d : Nat
  e : Nat
  h : Nat
  l : Nat
  sp : Nat
  pc : Nat
  memory : Memory
  flags : Nat
  interrupt_enabled : Bool

/-- Result type of the dispatcher, the `Result<u16, &str>` of
`dispatcher.rs`: `ok` carries the count of additional bytes consumed (or
the HALT sentinel 255), `err` an error message. -/
inductive OpResult where
  | ok (additional_bytes : Nat)
  | err (msg : String)
deriving DecidableEq

/-- Function `handle_op_code` of `src/emulator/src/cpu/dispatcher.rs`: the
opcode-indexed state machine.  Returns `ok` with the count of additional
bytes consumed (255 for HALT), and panics (`none`) for the `IN`/`OUT`
opcodes that the hardware module must intercept.  The Rust `match` over
the 256 byte literals is translated as an equality chain; opcode values
above 0xff do not occur (the argument is a `u8`). -/
def handle_op_code (op_code : Nat) (cpu : Cpu) : Option (OpResult × Cpu) :=
  if op_code = 0x00 then some (.ok 0, cpu)
  else if op_code = 0x01 then
    some (.ok 2, { cpu with b := cpu.memory.read_at ((cpu.pc + 1) % 65536),
                            c := cpu.memory.read_at cpu.pc })
  else if op_code = 0x02 then
    some (.ok 0, { cpu with memory := cpu.memory.write_at (pair_registers cpu.b cpu.c) cpu.a })
  else if op_code = 0x03 then
    let r := inx (pair_registers cpu.b cpu.c)
    some (.ok 0, { cpu with b := r.1, c := r.2 })
  else if op_code = 0x04 then
    let r := inr cpu.b cpu.flags
    some (.ok 0, { cpu with b := r.1, flags := r.2 })
  else if op_code = 0x05 then
    let r := dcr cpu.b cpu.flags
    some (.ok 0, { cpu with b := r.1, flags := r.2 })
  else if op_code = 0x06 then
    some (.ok 1, { cpu with b := cpu.memory.read_at cpu.pc })
  else if op_code = 0x07 then
    let r := rotate_left cpu.a false cpu.flags
    some (.ok 0, { cpu with a := r.1, flags := r.2 })
  else if op_code = 0x08 then some (.ok 0, cpu)
  else if op_code = 0x09 then
    let r := dad (pair_registers cpu.h cpu.l) (pair_registers cpu.b cpu.c) cpu.flags
    some (.ok 0, { cpu with h := r.1.1, l := r.1.2, flags := r.2 })
  else if op_code = 0x0a then
    some (.ok 0, { cpu with a := cpu.memory.read_at (pair_registers cpu.b cpu.c) })
  else if op_code = 0x0b then
    let r := dcx (pair_registers cpu.b cpu.c)
    some (.ok 0, { cpu with b := r.1, c := r.2 })
  else if op_code = 0x0c then
    let r := inr cpu.c cpu.flags
    some (.ok 0, { cpu with c := r.1, flags := r.2 })
  else if op_code = 0x0d then
    let r := dcr cpu.c cpu.flags
    some (.ok 0, { cpu with c := r.1, flags := r.2 })
  else if op_code = 0x0e then
    some (.ok 1, { cpu with c := cpu.memory.read_at cpu.pc })
  else if op_code = 0x0f then
    let r := rotate_right cpu.a false cpu.flags
    some (.ok 0, { cpu with a := r.1, flags := r.2 })
  else if op_code = 0x10 then some (.ok 0, cpu)
  else if op_code = 0x11 then
    some (.ok 2, { cpu with d := cpu.memory.read_at ((cpu.pc + 1) % 65536),
                            e := cpu.memory.read_at cpu.pc })
  else if op_code = 0x12 then
    some (.ok 0, { cpu with memory := cpu.memory.write_at (pair_registers cpu.d cpu.e) cpu.a })
  else if op_code = 0x13 then
    let r := inx (pair_registers cpu.d cpu.e)
    some (.ok 0, { cpu with d := r.1, e := r.2 })
  else if op_code = 0x14 then
    let r := inr cpu.d cpu.flags
    some (.ok 0, { cpu with d := r.1, flags := r.2 })
  else if op_code = 0x15 then
    let r := dcr cpu.d cpu.flags
    some (.ok 0, { cpu with d := r.1, flags := r.2 })
  else if op_code = 0x16 then
    some (.ok 1, { cpu with d := cpu.memory.read_at cpu.pc })
  else if op_code = 0x17 then
    let r := rotate_left cpu.a true cpu.flags
    some (.ok 0, { cpu with a := r.1, flags := r.2 })
  else if op_code = 0x18 then some (.ok 0, cpu)
  else if op_code = 0x19 then
    let r := dad (pair_registers cpu.h cpu.l) (pair_registers cpu.d cpu.e) cpu.flags
    some (.ok 0, { cpu with h := r.1.1, l := r.1.2, flags := r.2 })
  else if op_code = 0x1a then
    some (.ok 0, { cpu with a := cpu.memory.read_at (pair_registers cpu.d cpu.e) })
  else if op_code = 0x1b then
    let r := dcx (pair_registers cpu.d cpu.e)
    some (.ok 0, { cpu with d := r.1, e := r.2 })
  else if op_code = 0x1c then
    let r := inr cpu.e cpu.flags
    some (.ok 0, { cpu with e := r.1, flags := r.2 })
  else if op_code = 0x1d then
    let r := dcr cpu.e cpu.flags
    some (.ok 0, { cpu with e := r.1, flags := r.2 })
  else if op_code = 0x1e then
    some (.ok 1, { cpu with e := cpu.memory.read_at cpu.pc })
  else if op_code = 0x1f then
    let r := rotate_right cpu.a true cpu.flags
    some (.ok 0, { cpu with a := r.1, flags := r.2 })
  else if op_code = 0x20 then some (.ok 0, cpu)
  else if op_code = 0x21 then
    some (.ok 2, { cpu with h := cpu.memory.read_at ((cpu.pc + 1) % 65536),
                            l := cpu.memory.read_at cpu.pc })
  else if op_code = 0x22 then
    let addr := pair_registers (cpu.memory.read_at ((cpu.pc + 1) % 65536))
                               (cpu.memory.read_at cpu.pc)
    let m1 := cpu.memory.write_at addr cpu.l
    let m2 := m1.write_at ((addr + 1) % 65536) cpu.h
    some (.ok 2, { cpu with memory := m2 })
  else if op_code = 0x23 then
    let r := inx (pair_registers cpu.h cpu.l)
    some (.ok 0, { cpu with h := r.1, l := r.2 })
  else if op_code = 0x24 then
    let r := inr cpu.h cpu.flags
    some (.ok 0, { cpu with h := r.1, flags := r.2 })
  else if op_code = 0x25 then
    let r := dcr cpu.h cpu.flags
    some (.ok 0, { cpu with h := r.1, flags := r.2 })
  else if op_code = 0x26 then
    some (.ok 1, { cpu with h := cpu.memory.read_at cpu.pc })
  else if op_code = 0x27 then
    let r := daa cpu.a cpu.flags
    some (.ok 0, { cpu with a := r.1, flags := r.2 })
  else if op_code = 0x28 then some (.ok 0, cpu)
  else if op_code = 0x29 then
    let r := dad (pair_registers cpu.h cpu.l) (pair_registers cpu.h cpu.l) cpu.flags
    some (.ok 0, { cpu with h := r.1.1, l := r.1.2, flags := r.2 })
  else if op_code = 0x2a then
    let addr := pair_registers (cpu.memory.read_at ((cpu.pc + 1) % 65536))
                               (cpu.memory.read_at cpu.pc)
    some (.ok 2, { cpu with l := cpu.memory.read_at addr,
                            h := cpu.memory.read_at ((addr + 1) % 65536) })
  else if op_code = 0x2b then
    let r := dcx (pair_registers cpu.h cpu.l)
    some (.ok 0, { cpu with h := r.1, l := r.2 })
  else if op_code = 0x2c then
    let r := inr cpu.l cpu.flags
    some (.ok 0, { cpu with l := r.1, flags := r.2 })
  else if op_code = 0x2d then
    let r := dcr cpu.l cpu.flags
    some (.ok 0, { cpu with l := r.1, flags := r.2 })
  else if op_code = 0x2e then
    some (.ok 1, { cpu with l := cpu.memory.read_at cpu.pc })
  else if op_code = 0x2f then
    some (.ok 0, { cpu with a := cpu.a ^^^ 0xff })
  else if op_code = 0x30 then some (.ok 0, cpu)
  else if op_code = 0x31 then
    some (.ok 2, { cpu with sp := pair_registers (cpu.memory.read_at ((cpu.pc + 1) % 65536))
                                                 (cpu.memory.read_at cpu.pc) })
  else if op_code = 0x32 then
    let addr := pair_registers (cpu.memory.read_at ((cpu.pc + 1) % 65536))
                               (cpu.memory.read_at cpu.pc)
    some (.ok 2, { cpu with memory := cpu.memory.write_at addr cpu.a })
  else if op_code = 0x33 then
    let s := split_register_pair cpu.sp
    let r := inx (pair_registers s.1 s.2)
    some (.ok 0, { cpu with sp := pair_registers r.1 r.2 })
  else if op_code = 0x34 then
    let r := inr (cpu.memory.read_at (pair_registers cpu.h cpu.l)) cpu.flags
    some (.ok 0, { cpu with memory := cpu.memory.write_at (pair_registers cpu.h cpu.l) r.1,
                            flags := r.2 })
  else if op_code = 0x35 then
    let r := dcr (cpu.memory.read_at (pair_registers cpu.h cpu.l)) cpu.flags
    some (.ok 0, { cpu with memory := cpu.memory.write_at (pair_registers cpu.h cpu.l) r.1,
                            flags := r.2 })
  else if op_code = 0x36 then
    let m1 := cpu.memory.write_at (pair_registers cpu.h cpu.l) (cpu.memory.read_at cpu.pc)
    some (.ok 1, { cpu with memory := m1 })
  else if op_code = 0x37 then
    some (.ok 0, { cpu with flags := set_flag cpu.flags Flag.CY })
  else if op_code = 0x38 then some (.ok 0, cpu)
  else if op_code = 0x39 then
    let r := dad (pair_registers cpu.h cpu.l) cpu.sp cpu.flags
    some (.ok 0, { cpu with h := r.1.1, l := r.1.2, flags := r.2 })
  else if op_code = 0x3a then
    let addr := pair_registers (cpu.memory.read_at ((cpu.pc + 1) % 65536))
                               (cpu.memory.read_at cpu.pc)
    some (.ok 2, { cpu with a := cpu.memory.read_at addr })
  else if op_code = 0x3b then
    let s := split_register_pair cpu.sp
    let r := dcx (pair_registers s.1 s.2)
    some (.ok 0, { cpu with sp := pair_registers r.1 r.2 })
  else if op_code = 0x3c then
    let r := inr cpu.a cpu.flags
    some (.ok 0, { cpu with a := r.1, flags := r.2 })
  else if op_code = 0x3d then
    let r := dcr cpu.a cpu.flags
    some (.ok 0, { cpu with a := r.1, flags := r.2 })
  else if op_code = 0x3e then
    some (.ok 1, { cpu with a := cpu.memory.read_at cpu.pc })
  else if op_code = 0x3f then
    some (.ok 0, { cpu with flags := clear_flag cpu.flags Flag.CY })
  else if op_code = 0x40 then some (.ok 0, { cpu with b := cpu.b })
  else if op_code = 0x41 then some (.ok 0, { cpu with b := cpu.c })
  else if op_code = 0x42 then some (.ok 0, { cpu with b := cpu.d })
  else if op_code = 0x43 then some (.ok 0, { cpu with b := cpu.e })
  else if op_code = 0x44 then some (.ok 0, { cpu with b := cpu.h })
  else if op_code = 0x45 then some (.ok 0, { cpu with b := cpu.l })
  else if op_code = 0x46 then
    some (.ok 0, { cpu with b := cpu.memory.read_at (pair_registers cpu.h cpu.l) })
  else if op_code = 0x47 then some (.ok 0, { cpu with b := cpu.a })
  else if op_code = 0x48 then some (.ok 0, { cpu with c := cpu.b })
  else if op_code = 0x49 then some (.ok 0, { cpu with c := cpu.c })
  else if op_code = 0x4a then some (.ok 0, { cpu with c := cpu.d })
  else if op_code = 0x4b then some (.ok 0, { cpu with c := cpu.e })
  else if op_code = 0x4c then some (.ok 0, { cpu with c := cpu.h })
  else if op_code = 0x4d then some (.ok 0, { cpu with c := cpu.l })
  else if op_code = 0x4e then
    some (.ok 0, { cpu with c := cpu.memory.read_at (pair_registers cpu.h cpu.l) })
  else if op_code = 0x4f then some (.ok 0, { cpu with c := cpu.a })
  else if op_code = 0x50 then some (.ok 0, { cpu with d := cpu.b })
  else if op_code = 0x51 then some (.ok 0, { cpu with d := cpu.c })
  else if op_code = 0x52 then some (.ok 0, { cpu with d := cpu.d })
  else if op_code = 0x53 then some (.ok 0, { cpu with d := cpu.e })
  else if op_code = 0x54 then some (.ok 0, { cpu with d := cpu.h })
  else if op_code = 0x55 then some (.ok 0, { cpu with d := cpu.l })
  else if op_code = 0x56 then
    some (.ok 0, { cpu with d := cpu.memory.read_at (pair_registers cpu.h cpu.l) })
  else if op_code = 0x57 then some (.ok 0, { cpu with d := cpu.a })
  else if op_code = 0x58 then some (.ok 0, { cpu with e := cpu.b })
  else if op_code = 0x59 then some (.ok 0, { cpu with e := cpu.c })
  else if op_code = 0x5a then some (.ok 0, { cpu with e := cpu.d })
  else if op_code = 0x5b then some (.ok 0, { cpu with e := cpu.e })
  else if op_code = 0x5c then some (.ok 0, { cpu with e := cpu.h })
  else if op_code = 0x5d then some (.ok 0, { cpu with e := cpu.l })
  else if op_code = 0x5e then
    some (.ok 0, { cpu with e := cpu.memory.read_at (pair_registers cpu.h cpu.l) })
  else if op_code = 0x5f then some (.ok 0, { cpu with e := cpu.a })
  else if op_code = 0x60 then some (.ok 0, { cpu with h := cpu.b })
  else if op_code = 0x61 then some (.ok 0, { cpu with h := cpu.c })
  else if op_code = 0x62 then some (.ok 0, { cpu with h := cpu.d })
  else if op_code = 0x63 then some (.ok 0, { cpu with h := cpu.e })
  else if op_code = 0x64 then some (.ok 0, { cpu with h := cpu.h })
  else if op_code = 0x65 then some (.ok 0, { cpu with h := cpu.l })
  else if op_code = 0x66 then
    some (.ok 0, { cpu with h := cpu.memory.read_at (pair_registers cpu.h cpu.l) })
  else if op_code = 0x67 then some (.ok 0, { cpu with h := cpu.a })
  else if op_code = 0x68 then some (.ok 0, { cpu with l := cpu.b })
  else if op_code = 0x69 then some (.ok 0, { cpu with l := cpu.c })
  else if op_code = 0x6a then some (.ok 0, { cpu with l := cpu.d })
  else if op_code = 0x6b then some (.ok 0, { cpu with l := cpu.e })
  else if op_code = 0x6c then some (.ok 0, { cpu with l := cpu.h })
  else if op_code = 0x6d then some (.ok 0, { cpu with l := cpu.l })
  else if op_code = 0x6e then
    some (.ok 0, { cpu with l := cpu.memory.read_at (pair_registers cpu.h cpu.l) })
  else if op_code = 0x6f then some (.ok 0, { cpu with l := cpu.a })
  else if op_code = 0x70 then
    some (.ok 0, { cpu with memory := cpu.memory.write_at (pair_registers cpu.h cpu.l) cpu.b })
  else if op_code = 0x71 then
    some (.ok 0, { cpu with memory := cpu.memory.write_at (pair_registers cpu.h cpu.l) cpu.c })
  else if op_code = 0x72 then
    some (.ok 0, { cpu with memory := cpu.memory.write_at (pair_registers cpu.h cpu.l) cpu.d })
  else if op_code = 0x73 then
    some (.ok 0, { cpu with memory := cpu.memory.write_at (pair_registers cpu.h cpu.l) cpu.e })
  else if op_code = 0x74 then
    some (.ok 0, { cpu with memory := cpu.memory.write_at (pair_registers cpu.h cpu.l) cpu.h })
  else if op_code = 0x75 then
    some (.ok 0, { cpu with memory := cpu.memory.write_at (pair_registers cpu.h cpu.l) cpu.l })
  else if op_code = 0x76 then some (.ok 255, cpu)
  else if op_code = 0x77 then
    some (.ok 0, { cpu with memory := cpu.memory.write_at (pair_registers cpu.h cpu.l) cpu.a })
  else if op_code = 0x78 then some (.ok 0, { cpu with a := cpu.b })
  else if op_code = 0x79 then some (.ok 0, { cpu with a := cpu.c })
  else if op_code = 0x7a then some (.ok 0, { cpu with a := cpu.d })
  else if op_code = 0x7b then some (.ok 0, { cpu with a := cpu.e })
  else if op_code = 0x7c then some (.ok 0, { cpu with a := cpu.h })
  else if op_code = 0x7d then some (.ok 0, { cpu with a := cpu.l })
  else if op_code = 0x7e then
    some (.ok 0, { cpu with a := cpu.memory.read_at (pair_registers cpu.h cpu.l) })
  else if op_code = 0x7f then some (.ok 0, { cpu with a := cpu.a })
  else if op_code = 0x80 then
    let r := add cpu.a cpu.b cpu.flags
    some (.ok 0, { cpu with a := r.1, flags := r.2 })
  else if op_code = 0x81 then
    let r := add cpu.a cpu.c cpu.flags
    some (.ok 0, { cpu with a := r.1, flags := r.2 })
  else if op_code = 0x82 then
    let r := add cpu.a cpu.d cpu.flags
    some (.ok 0, { cpu with a := r.1, flags := r.2 })
  else if op_code = 0x83 then
    let r := add cpu.a cpu.e cpu.flags
    some (.ok 0, { cpu with a := r.1, flags := r.2 })
  else if op_code = 0x84 then
    let r := add cpu.a cpu.h cpu.flags
    some (.ok 0, { cpu with a := r.1, flags := r.2 })
  else if op_code = 0x85 then
    let r := add cpu.a cpu.l cpu.flags
    some (.ok 0, { cpu with a := r.1, flags := r.2 })
  else if op_code = 0x86 then
    let r := add cpu.a (cpu.memory.read_at (pair_registers cpu.h cpu.l)) cpu.flags
    some (.ok 0, { cpu with a := r.1, flags := r.2 })
  else if op_code = 0x87 then
    let r := add cpu.a cpu.a cpu.flags
    some (.ok 0, { cpu with a := r.1, flags := r.2 })
  else if op_code = 0x88 then
    let r := adc cpu.a cpu.b cpu.flags
    some (.ok 0, { cpu with a := r.1, flags := r.2 })
  else if op_code = 0x89 then
    let r := adc cpu.a cpu.c cpu.flags
    some (.ok 0, { cpu with a := r.1, flags := r.2 })
  else if op_code = 0x8a then
    let r := adc cpu.a cpu.d cpu.flags
    some (.ok 0, { cpu with a := r.1, flags := r.2 })
  else if op_code = 0x8b then
    let r := adc cpu.a cpu.e cpu.flags
    some (.ok 0, { cpu with a := r.1, flags := r.2 })
  else if op_code = 0x8c then
    let r := adc cpu.a cpu.h cpu.flags
    some (.ok 0, { cpu with a := r.1, flags := r.2 })
  else if op_code = 0x8d then
    let r := adc cpu.a cpu.l cpu.flags
    some (.ok 0, { cpu with a := r.1, flags := r.2 })
  else if op_code = 0x8e then
    let r := adc cpu.a (cpu.memory.read_at (pair_registers cpu.h cpu.l)) cpu.flags
    some (.ok 0, { cpu with a := r.1, flags := r.2 })
  else if op_code = 0x8f then
    let r := adc cpu.a cpu.a cpu.flags
    some (.ok 0, { cpu with a := r.1, flags := r.2 })
  else if op_code = 0x90 then
    let r := sub cpu.a cpu.b cpu.flags
    some (.ok 0, { cpu with a := r.1, flags := r.2 })
  else if op_code = 0x91 then
    let r := sub cpu.a cpu.c cpu.flags
    some (.ok 0, { cpu with a := r.1, flags := r.2 })
  else if op_code = 0x92 then
    let r := sub cpu.a cpu.d cpu.flags
    some (.ok 0, { cpu with a := r.1, flags := r.2 })
  else if op_code = 0x93 then
    let r := sub cpu.a cpu.e cpu.flags
    some (.ok 0, { cpu with a := r.1, flags := r.2 })
  else if op_code = 0x94 then
    let r := sub cpu.a cpu.h cpu.flags
    some (.ok 0, { cpu with a := r.1, flags := r.2 })
  else if op_code = 0x95 then
    let r := sub cpu.a cpu.l cpu.flags
    some (.ok 0, { cpu with a := r.1, flags := r.2 })
  else if op_code = 0x96 then
    let r := sub cpu.a (cpu.memory.read_at (pair_registers cpu.h cpu.l)) cpu.flags
    some (.ok 0, { cpu with a := r.1, flags := r.2 })
  else if op_code = 0x97 then
    let r := sub cpu.a cpu.a cpu.flags
    some (.ok 0, { cpu with a := r.1, flags := r.2 })
  else if op_code = 0x98 then
    let r := sbb cpu.a cpu.b cpu.flags
    some (.ok 0, { cpu with a := r.1, flags := r.2 })
  else if op_code = 0x99 then
    let r := sbb cpu.a cpu.c cpu.flags
    some (.ok 0, { cpu with a := r.1, flags := r.2 })
  else if op_code = 0x9a then
    let r := sbb cpu.a cpu.d cpu.flags
    some (.ok 0, { cpu with a := r.1, flags := r.2 })
  else if op_code = 0x9b then
    let r := sbb cpu.a cpu.e cpu.flags
    some (.ok 0, { cpu with a := r.1, flags := r.2 })
  else if op_code = 0x9c then
    let r := sbb cpu.a cpu.h cpu.flags
    some (.ok 0, { cpu with a := r.1, flags := r.2 })
  else if op_code = 0x9d then
    let r := sbb cpu.a cpu.l cpu.flags
    some (.ok 0, { cpu with a := r.1, flags := r.2 })
  else if op_code = 0x9e then
    let r := sbb cpu.a (cpu.memory.read_at (pair_registers cpu.h cpu.l)) cpu.flags
    some (.ok 0, { cpu with a := r.1, flags := r.2 })
  else if op_code = 0x9f then
    let r := sbb cpu.a cpu.a cpu.flags
    some (.ok 0, { cpu with a := r.1, flags := r.2 })
  else if op_code = 0xa0 then
    let r := and cpu.a cpu.b cpu.flags
    some (.ok 0, { cpu with a := r.1, flags := r.2 })
  else if op_code = 0xa1 then
    let r := and cpu.a cpu.c cpu.flags
    some (.ok 0, { cpu with a := r.1, flags := r.2 })
  else if op_code = 0xa2 then
    let r := and cpu.a cpu.d cpu.flags
    some (.ok 0, { cpu with a := r.1, flags := r.2 })
  else if op_code = 0xa3 then
    let r := and cpu.a cpu.e cpu.flags
    some (.ok 0, { cpu with a := r.1, flags := r.2 })
  else if op_code = 0xa4 then
    let r := and cpu.a cpu.h cpu.flags
    some (.ok 0, { cpu with a := r.1, flags := r.2 })
  else if op_code = 0xa5 then
    let r := and cpu.a cpu.l cpu.flags
    some (.ok 0, { cpu with a := r.1, flags := r.2 })
  else if op_code = 0xa6 then
    let r := and cpu.a (cpu.memory.read_at (pair_registers cpu.h cpu.l)) cpu.flags
    some (.ok 0, { cpu with a := r.1, flags := r.2 })
  else if op_code = 0xa7 then
    let r := and cpu.a cpu.a cpu.flags
    some (.ok 0, { cpu with a := r.1, flags := r.2 })
  else if op_code = 0xa8 then
    let r := xor cpu.a cpu.b cpu.flags
    some (.ok 0, { cpu with a := r.1, flags := r.2 })
  else if op_code = 0xa9 then
    let r := xor cpu.a cpu.c cpu.flags
    some (.ok 0, { cpu with a := r.1, flags := r.2 })
  else if op_code = 0xaa then
    let r := xor cpu.a cpu.d cpu.flags
    some (.ok 0, { cpu with a := r.1, flags := r.2 })
  else if op_code = 0xab then
    let r := xor cpu.a cpu.e cpu.flags
    some (.ok 0, { cpu with a := r.1, flags := r.2 })
  else if op_code = 0xac then
    let r := xor cpu.a cpu.h cpu.flags
    some (.ok 0, { cpu with a := r.1, flags := r.2 })
  else if op_code = 0xad then
    let r := xor cpu.a cpu.l cpu.flags
    some (.ok 0, { cpu with a := r.1, flags := r.2 })
  else if op_code = 0xae then
    let r := xor cpu.a (cpu.memory.read_at (pair_registers cpu.h cpu.l)) cpu.flags
    some (.ok 0, { cpu with a := r.1, flags := r.2 })
  else if op_code = 0xaf then
    let r := xor cpu.a cpu.a cpu.flags
    some (.ok 0, { cpu with a := r.1, flags := r.2 })
  else if op_code = 0xb0 then
    let r := or cpu.a cpu.b cpu.flags
    some (.ok 0, { cpu with a := r.1, flags := r.2 })
  else if op_code = 0xb1 then
    let r := or cpu.a cpu.c cpu.flags
    some (.ok 0, { cpu with a := r.1, flags := r.2 })
  else if op_code = 0xb2 then
    let r := or cpu.a cpu.d cpu.flags
    some (.ok 0, { cpu with a := r.1, flags := r.2 })
  else if op_code = 0xb3 then
    let r := or cpu.a cpu.e cpu.flags
    some (.ok 0, { cpu with a := r.1, flags := r.2 })
  else if op_code = 0xb4 then
    let r := or cpu.a cpu.h cpu.flags
    some (.ok 0, { cpu with a := r.1, flags := r.2 })
  else if op_code = 0xb5 then
    let r := or cpu.a cpu.l cpu.flags
    some (.ok 0, { cpu with a := r.1, flags := r.2 })
  else if op_code = 0xb6 then
    let r := or cpu.a (cpu.memory.read_at (pair_registers cpu.h cpu.l)) cpu.flags
    some (.ok 0, { cpu with a := r.1, flags := r.2 })
  else if op_code = 0xb7 then
    let r := or cpu.a cpu.a cpu.flags
    some (.ok 0, { cpu with a := r.1, flags := r.2 })
  else if op_code = 0xb8 then
    some (.ok 0, { cpu with flags := cmp cpu.a cpu.b cpu.flags })
  else if op_code = 0xb9 then
    some (.ok 0, { cpu with flags := cmp cpu.a cpu.c cpu.flags })
  else if op_code = 0xba then
    some (.ok 0, { cpu with flags := cmp cpu.a cpu.d cpu.flags })
  else if op_code = 0xbb then
    some (.ok 0, { cpu with flags := cmp cpu.a cpu.e cpu.flags })
  else if op_code = 0xbc then
    some (.ok 0, { cpu with flags := cmp cpu.a cpu.h cpu.flags })
  else if op_code = 0xbd then
    some (.ok 0, { cpu with flags := cmp cpu.a cpu.l cpu.flags })
  else if op_code = 0xbe then
    some (.ok 0, { cpu with flags := cmp cpu.a (cpu.memory.read_at (pair_registers cpu.h cpu.l)) cpu.flags })
  else if op_code = 0xbf then
    some (.ok 0, { cpu with flags := cmp cpu.a cpu.a cpu.flags })
  else if op_code = 0xc0 then
    let r := ret (some (check_flag cpu.flags Flag.Z == 0)) cpu.sp cpu.memory
    match r.1 with
    | some address => some (.ok 0, { cpu with pc := address, sp := r.2.1, memory := r.2.2 })
    | none => some (.ok 0, cpu)
  else if op_code = 0xc1 then
    let r := pop cpu.sp cpu.memory
    some (.ok 0, { cpu with b := r.1.1, c := r.1.2, sp := r.2.1, memory := r.2.2 })
  else if op_code = 0xc2 then
    match jmp (cpu.memory.read_at cpu.pc, cpu.memory.read_at ((cpu.pc + 1) % 65536))
              (some (check_flag cpu.flags Flag.Z == 0)) with
    | some address => some (.ok 0, { cpu with pc := address })
    | none => some (.ok 2, cpu)
  else if op_code = 0xc3 then
    match jmp (cpu.memory.read_at cpu.pc, cpu.memory.read_at ((cpu.pc + 1) % 65536)) none with
    | some address => some (.ok 0, { cpu with pc := address })
    | none => none
  else if op_code = 0xc4 then
    let r := call (cpu.memory.read_at cpu.pc, cpu.memory.read_at ((cpu.pc + 1) % 65536))
                  (some (check_flag cpu.flags Flag.Z == 0)) cpu.sp cpu.memory
                  ((cpu.pc + 2) % 65536)
    match r.1 with
    | some address => some (.ok 0, { cpu with pc := address, sp := r.2.1, memory := r.2.2 })
    | none => some (.ok 2, cpu)
  else if op_code = 0xc5 then
    let r := push (cpu.b, cpu.c) cpu.sp cpu.memory
    some (.ok 0, { cpu with sp := r.1, memory := r.2 })
  else if op_code = 0xc6 then
    let r := add cpu.a (cpu.memory.read_at cpu.pc) cpu.flags
    some (.ok 1, { cpu with a := r.1, flags := r.2 })
  else if op_code = 0xc7 then
    let r := call (0x00, 0x00) none cpu.sp cpu.memory cpu.pc
    match r.1 with
    | some address => some (.ok 0, { cpu with pc := address, sp := r.2.1, memory := r.2.2 })
    | none => none
  else if op_code = 0xc8 then
    let r := ret (some (check_flag cpu.flags Flag.Z == 1)) cpu.sp cpu.memory
    match r.1 with
    | some address => some (.ok 0, { cpu with pc := address, sp := r.2.1, memory := r.2.2 })
    | none => some (.ok 0, cpu)
  else if op_code = 0xc9 then
    let r := ret none cpu.sp cpu.memory
    match r.1 with
    | some address => some (.ok 0, { cpu with pc := address, sp := r.2.1, memory := r.2.2 })
    | none => none
  else if op_code = 0xca then
    match jmp (cpu.memory.read_at cpu.pc, cpu.memory.read_at ((cpu.pc + 1) % 65536))
              (some (check_flag cpu.flags Flag.Z == 1)) with
    | some address => some (.ok 0, { cpu with pc := address })
    | none => some (.ok 2, cpu)
  else if op_code = 0xcb then some (.ok 0, cpu)
  else if op_code = 0xcc then
    let r := call (cpu.memory.read_at cpu.pc, cpu.memory.read_at ((cpu.pc + 1) % 65536))
                  (some (check_flag cpu.flags Flag.Z == 1)) cpu.sp cpu.memory
                  ((cpu.pc + 2) % 65536)
    match r.1 with
    | some address => some (.ok 0, { cpu with pc := address, sp := r.2.1, memory := r.2.2 })
    | none => some (.ok 2, cpu)
  else if op_code = 0xcd then
    let r := call (cpu.memory.read_at cpu.pc, cpu.memory.read_at ((cpu.pc + 1) % 65536))
                  none cpu.sp cpu.memory ((cpu.pc + 2) % 65536)
    match r.1 with
    | some address => some (.ok 0, { cpu with pc := address, sp := r.2.1, memory := r.2.2 })
    | none => none
  else if op_code = 0xce then
    let r := adc cpu.a (cpu.memory.read_at cpu.pc) cpu.flags
    some (.ok 1, { cpu with a := r.1, flags := r.2 })
  else if op_code = 0xcf then
    let r := call (0x08, 0x00) none cpu.sp cpu.memory cpu.pc
    match r.1 with
    | some address => some (.ok 0, { cpu with pc := address, sp := r.2.1, memory := r.2.2 })
    | none => none
  else if op_code = 0xd0 then
    let r := ret (some (check_flag cpu.flags Flag.CY == 0)) cpu.sp cpu.memory
    match r.1 with
    | some address => some (.ok 0, { cpu with pc := address, sp := r.2.1, memory := r.2.2 })
    | none => some (.ok 0, cpu)
  else if op_code = 0xd1 then
    let r := pop cpu.sp cpu.memory
    some (.ok 0, { cpu with d := r.1.1, e := r.1.2, sp := r.2.1, memory := r.2.2 })
  else if op_code = 0xd2 then
    match jmp (cpu.memory.read_at cpu.pc, cpu.memory.read_at ((cpu.pc + 1) % 65536))
              (some (check_flag cpu.flags Flag.CY == 0)) with
    | some address => some (.ok 0, { cpu with pc := address })
    | none => some (.ok 2, cpu)
  else if op_code = 0xd3 then none
  else if op_code = 0xd4 then
    let r := call (cpu.memory.read_at cpu.pc, cpu.memory.read_at ((cpu.pc + 1) % 65536))
                  (some (check_flag cpu.flags Flag.CY == 0)) cpu.sp cpu.memory
                  ((cpu.pc + 2) % 65536)
    match r.1 with
    | some address => some (.ok 0, { cpu with pc := address, sp := r.2.1, memory := r.2.2 })
    | none => some (.ok 2, cpu)
  else if op_code = 0xd5 then
    let r := push (cpu.d, cpu.e) cpu.sp cpu.memory
    some (.ok 0, { cpu with sp := r.1, memory := r.2 })
  else if op_code = 0xd6 then
    let r := sub cpu.a (cpu.memory.read_at cpu.pc) cpu.flags
    some (.ok 1, { cpu with a := r.1, flags := r.2 })
  else if op_code = 0xd7 then
    let r := call (0x10, 0x00) none cpu.sp cpu.memory cpu.pc
    match r.1 with
    | some address => some (.ok 0, { cpu with pc := address, sp := r.2.1, memory := r.2.2 })
    | none => none
  else if op_code = 0xd8 then
    let r := ret (some (check_flag cpu.flags Flag.CY == 1)) cpu.sp cpu.memory
    match r.1 with
    | some address => some (.ok 0, { cpu with pc := address, sp := r.2.1, memory := r.2.2 })
    | none => some (.ok 0, cpu)
  else if op_code = 0xd9 then some (.ok 0, cpu)
  else if op_code = 0xda then
    match jmp (cpu.memory.read_at cpu.pc, cpu.memory.read_at ((cpu.pc + 1) % 65536))
              (some (check_flag cpu.flags Flag.CY == 1)) with
    | some address => some (.ok 0, { cpu with pc := address })
    | none => some (.ok 2, cpu)
  else if op_code = 0xdb then none
  else if op_code = 0xdc then
    let r := call (cpu.memory.read_at cpu.pc, cpu.memory.read_at ((cpu.pc + 1) % 65536))
                  (some (check_flag cpu.flags Flag.CY == 1)) cpu.sp cpu.memory
                  ((cpu.pc + 2) % 65536)
    match r.1 with
    | some address => some (.ok 0, { cpu with pc := address, sp := r.2.1, memory := r.2.2 })
    | none => some (.ok 2, cpu)
  else if op_code = 0xdd then some (.ok 0, cpu)
  else if op_code = 0xde then
    let r := sbb cpu.a (cpu.memory.read_at cpu.pc) cpu.flags
    some (.ok 1, { cpu with a := r.1, flags := r.2 })
  else if op_code = 0xdf then
    let r := call (0x18, 0x00) none cpu.sp cpu.memory cpu.pc
    match r.1 with
    | some address => some (.ok 0, { cpu with pc := address, sp := r.2.1, memory := r.2.2 })
    | none => none
  else if op_code = 0xe0 then
    let r := ret (some (check_flag cpu.flags Flag.P == 0)) cpu.sp cpu.memory
    match r.1 with
    | some address => some (.ok 0, { cpu with pc := address, sp := r.2.1, memory := r.2.2 })
    | none => some (.ok 0, cpu)
  else if op_code = 0xe1 then
    let r := pop cpu.sp cpu.memory
    some (.ok 0, { cpu with h := r.1.1, l := r.1.2, sp := r.2.1, memory := r.2.2 })
  else if op_code = 0xe2 then
    match jmp (cpu.memory.read_at cpu.pc, cpu.memory.read_at ((cpu.pc + 1) % 65536))
              (some (check_flag cpu.flags Flag.P == 0)) with
    | some address => some (.ok 0, { cpu with pc := address })
    | none => some (.ok 2, cpu)
  else if op_code = 0xe3 then
    let pr := pop cpu.sp cpu.memory
    let ps := push (cpu.h, cpu.l) pr.2.1 pr.2.2
    some (.ok 0, { cpu with h := pr.1.1, l := pr.1.2, sp := ps.1, memory := ps.2 })
  else if op_code = 0xe4 then
    let r := call (cpu.memory.read_at cpu.pc, cpu.memory.read_at ((cpu.pc + 1) % 65536))
                  (some (check_flag cpu.flags Flag.P == 0)) cpu.sp cpu.memory
                  ((cpu.pc + 2) % 65536)
    match r.1 with
    | some address => some (.ok 0, { cpu with pc := address, sp := r.2.1, memory := r.2.2 })
    | none => some (.ok 2, cpu)
  else if op_code = 0xe5 then
    let r := push (cpu.h, cpu.l) cpu.sp cpu.memory
    some (.ok 0, { cpu with sp := r.1, memory := r.2 })
  else if op_code = 0xe6 then
    let r := and cpu.a (cpu.memory.read_at cpu.pc) cpu.flags
    some (.ok 1, { cpu with a := r.1, flags := r.2 })
  else if op_code = 0xe7 then
    let r := call (0x20, 0x00) none cpu.sp cpu.memory cpu.pc
    match r.1 with
    | some address => some (.ok 0, { cpu with pc := address, sp := r.2.1, memory := r.2.2 })
    | none => none
  else if op_code = 0xe8 then
    let r := ret (some (check_flag cpu.flags Flag.P == 1)) cpu.sp cpu.memory
    match r.1 with
    | some address => some (.ok 0, { cpu with pc := address, sp := r.2.1, memory := r.2.2 })
    | none => some (.ok 0, cpu)
  else if op_code = 0xe9 then
    some (.ok 0, { cpu with pc := pair_registers cpu.h cpu.l })
  else if op_code = 0xea then
    match jmp (cpu.memory.read_at cpu.pc, cpu.memory.read_at ((cpu.pc + 1) % 65536))
              (some (check_flag cpu.flags Flag.P == 1)) with
    | some address => some (.ok 0, { cpu with pc := address })
    | none => some (.ok 2, cpu)
  else if op_code = 0xeb then
    let rh := swap_registers cpu.h cpu.d
    let rl := swap_registers cpu.l cpu.e
    some (.ok 0, { cpu with h := rh.1, d := rh.2, l := rl.1, e := rl.2 })
  else if op_code = 0xec then
    let r := call (cpu.memory.read_at cpu.pc, cpu.memory.read_at ((cpu.pc + 1) % 65536))
                  (some (check_flag cpu.flags Flag.P == 1)) cpu.sp cpu.memory
                  ((cpu.pc + 2) % 65536)
    match r.1 with
    | some address => some (.ok 0, { cpu with pc := address, sp := r.2.1, memory := r.2.2 })
    | none => some (.ok 2, cpu)
  else if op_code = 0xed then some (.ok 0, cpu)
  else if op_code = 0xee then
    let r := xor cpu.a (cpu.memory.read_at cpu.pc) cpu.flags
    some (.ok 1, { cpu with a := r.1, flags := r.2 })
  else if op_code = 0xef then
    let r := call (0x28, 0x00) none cpu.sp cpu.memory cpu.pc
    match r.1 with
    | some address => some (.ok 0, { cpu with pc := address, sp := r.2.1, memory := r.2.2 })
    | none => none
  else if op_code = 0xf0 then
    let r := ret (some (check_flag cpu.flags Flag.S == 0)) cpu.sp cpu.memory
    match r.1 with
    | some address => some (.ok 0, { cpu with pc := address, sp := r.2.1, memory := r.2.2 })
    | none => some (.ok 0, cpu)
  else if op_code = 0xf1 then
    let r := pop cpu.sp cpu.memory
    some (.ok 0, { cpu with a := r.1.1, flags := r.1.2, sp := r.2.1, memory := r.2.2 })
  else if op_code = 0xf2 then
    match jmp (cpu.memory.read_at cpu.pc, cpu.memory.read_at ((cpu.pc + 1) % 65536))
              (some (check_flag cpu.flags Flag.S == 0)) with
    | some address => some (.ok 0, { cpu with pc := address })
    | none => some (.ok 2, cpu)
  else if op_code = 0xf3 then
    some (.ok 0, { cpu with interrupt_enabled := false })
  else if op_code = 0xf4 then
    let r := call (cpu.memory.read_at cpu.pc, cpu.memory.read_at ((cpu.pc + 1) % 65536))
                  (some (check_flag cpu.flags Flag.S == 0)) cpu.sp cpu.memory
                  ((cpu.pc + 2) % 65536)
    match r.1 with
    | some address => some (.ok 0, { cpu with pc := address, sp := r.2.1, memory := r.2.2 })
    | none => some (.ok 2, cpu)
  else if op_code = 0xf5 then
    let r := push (cpu.a, cpu.flags) cpu.sp cpu.memory
    some (.ok 0, { cpu with sp := r.1, memory := r.2 })
  else if op_code = 0xf6 then
    let r := or cpu.a (cpu.memory.read_at cpu.pc) cpu.flags
    some (.ok 1, { cpu with a := r.1, flags := r.2 })
  else if op_code = 0xf7 then
    let r := call (0x30, 0x00) none cpu.sp cpu.memory cpu.pc
    match r.1 with
    | some address => some (.ok 0, { cpu with pc := address, sp := r.2.1, memory := r.2.2 })
    | none => none
  else if op_code = 0xf8 then
    let r := ret (some (check_flag cpu.flags Flag.S == 1)) cpu.sp cpu.memory
    match r.1 with
    | some address => some (.ok 0, { cpu with pc := address, sp := r.2.1, memory := r.2.2 })
    | none => some (.ok 0, cpu)
  else if op_code = 0xf9 then
    some (.ok 0, { cpu with sp := pair_registers cpu.h cpu.l })
  else if op_code = 0xfa then
    match jmp (cpu.memory.read_at cpu.pc, cpu.memory.read_at ((cpu.pc + 1) % 65536))
              (some (check_flag cpu.flags Flag.S == 1)) with
    | some address => some (.ok 0, { cpu with pc := address })
    | none => some (.ok 2, cpu)
  else if op_code = 0xfb then
    some (.ok 0, { cpu with interrupt_enabled := true })
  else if op_code = 0xfc then
    let r := call (cpu.memory.read_at cpu.pc, cpu.memory.read_at ((cpu.pc + 1) % 65536))
                  (some (check_flag cpu.flags Flag.S == 1)) cpu.sp cpu.memory
                  ((cpu.pc + 2) % 65536)
    match r.1 with
    | some address => some (.ok 0, { cpu with pc := address, sp := r.2.1, memory := r.2.2 })
    | none => some (.ok 2, cpu)
  else if op_code = 0xfd then some (.ok 0, cpu)
  else if op_code = 0xfe then
    some (.ok 1, { cpu with flags := cmp cpu.a (cpu.memory.read_at cpu.pc) cpu.flags })
  else if op_code = 0xff then
    let r := call (0x38, 0x00) none cpu.sp cpu.memory cpu.pc
    match r.1 with
    | some address => some (.ok 0, { cpu with pc := address, sp := r.2.1, memory := r.2.2 })
    | none => none
  else none

end Cpu1

/-- Concrete machine state used as a counterexample input: registers and
flags zero, stack pointer at the top of working RAM (0x2400), program
counter 0, zero-filled memory, interrupts disabled. -/
def cpu_ex : Cpu1.Cpu :=
  { a := 0, b := 0, c := 0, d := 0, e := 0, h := 0, l := 0,
    sp := 0x2400, pc := 0, memory := Cpu1.Memory.init, flags := 0,
    interrupt_enabled := false }

/-- Machine state for the call and return scenario of spec section 8: the
program counter is at 0x0005, where the two operand bytes 0xd4 and 0xc3
of an unconditional CALL sit in memory; the stack pointer is at its
initial 0x2400. -/
def call_scenario_start : Cpu1.Cpu :=
  { a := 0, b := 0, c := 0, d := 0, e := 0, h := 0, l := 0,
    sp := 0x2400, pc := 0x0005,
    memory := (Cpu1.Memory.init.write_at 0x0005 0xd4).write_at 0x0006 0xc3,
    flags := 0, interrupt_enabled := false }

/-- Machine state after dispatching opcode 0xcd (CALL) on
`call_scenario_start`. -/
def call_scenario_after_call : Cpu1.Cpu :=
  match Cpu1.handle_op_code 0xcd call_scenario_start with
  | some (_, c) => c
  | none => call_scenario_start

/-- Machine state after dispatching opcode 0xc9 (RET) on
`call_scenario_after_call`. -/
def call_scenario_after_ret : Cpu1.Cpu :=
  match Cpu1.handle_op_code 0xc9 call_scenario_after_call with
  | some (_, c) => c
  | none => call_scenario_after_call

/-- Hardware state exercised by the repository's own shift-register tests
(`test_shift` and `test_handle_io`): shift register 0b0001111111100000 and
shift amount 3 previously written to the shift-amount port. -/
def shift_test_hardware : Hardware :=
  { shift_register := 0b0001111111100000,
    ports := { Ports.new with shift_amount := 0b00000011 } }

/-- Clearing a bit through mask 254 leaves a flag byte with a clear low
bit. -/
theorem and_254_and_one (a : Nat) : (a &&& 254) &&& 1 = 0 := by
  rw [Nat.and_assoc]
  norm_num

/-- Setting the low bit through a bit-or leaves a flag byte with a set low
bit. -/
theorem or_one_and_one (a : Nat) : (a ||| 1) &&& 1 = 1 := by
  have h1 : (a ||| 1).testBit 0 = true := by
    rw [Nat.testBit_lor]
    simp
  rw [Nat.testBit_zero] at h1
  rw [Nat.and_one_is_mod]
  exact of_decide_eq_true h1

/-- Composition of two bytes into a 16-bit value is high-byte times 256
plus low byte. -/
theorem pair_registers_eq (h l : Nat) (hl : l < 256) :
    pair_registers h l = 256 * h + l := by
  have h256 : 256 * h + l = 2 ^ 8 * h + l := by norm_num
  apply Nat.eq_of_testBit_eq
  intro j
  rw [pair_registers, Nat.testBit_lor, Nat.testBit_shiftLeft, h256,
    Nat.testBit_mul_pow_two_add h (show l < 2 ^ 8 from hl) j]
  by_cases hj : j < 8
  · simp [hj, Nat.not_le.mpr hj]
  · have hge : 8 ≤ j := Nat.le_of_not_lt hj
    have hpow : (2 : Nat) ^ 8 ≤ 2 ^ j := Nat.pow_le_pow_right (by norm_num) hge
    have hlf : l.testBit j = false :=
      Nat.testBit_lt_two_pow (lt_of_lt_of_le hl hpow)
    simp [hj, hge, hlf]

/-- Check of the carry flag is always 0 or 1. -/
theorem check_flag_cy_cases (flags : Nat) :
    check_flag flags Flag.CY = 0 ∨ check_flag flags Flag.CY = 1 := by
  rw [check_flag]
  split
  · exact Or.inr rfl
  · exact Or.inl rfl

/-- Completion of `Cpu0.clear_flag` on the carry flag yields a byte whose
carry bit is clear. -/
theorem clear_flag_cy_spec (f0 f : Nat) (h : Cpu0.clear_flag f0 Flag.CY = some f) :
    check_flag f Flag.CY = 0 := by
  rw [Cpu0.clear_flag] at h
  split at h
  · exact absurd h (by simp)
  · have hf : f = f0 &&& 0b11111110 := by
      injection h with h2
      exact h2.symm
    subst hf
    rw [check_flag]
    rw [if_neg]
    rw [and_254_and_one]
    decide

/-- Completion of `Cpu0.set_flag` on the carry flag yields a byte whose
carry bit is set. -/
theorem set_flag_cy_spec (f0 f : Nat) (h : Cpu0.set_flag f0 Flag.CY = some f) :
    check_flag f Flag.CY = 1 := by
  rw [Cpu0.set_flag] at h
  split at h
  · exact absurd h (by simp)
  · have hf : f = f0 ||| 0b00000001 := by
      injection h with h2
      exact h2.symm
    subst hf
    rw [check_flag]
    rw [if_pos (or_one_and_one f0)]

/-- When the signed intermediate does not exceed 255, a completed
`Cpu0.set_flags_from_operation` leaves the carry flag clear. -/
theorem set_flags_carry_clear (result : Int) (flags f : Nat)
    (hr : result ≤ 255) (h : Cpu0.set_flags_from_operation result flags = some f) :
    check_flag f Flag.CY = 0 := by
  rw [Cpu0.set_flags_from_operation] at h
  split at h
  · exact absurd h (by simp)
  · split at h
    · exact absurd h (by simp)
    · split at h
      · exact absurd h (by simp)
      · rw [if_neg (by omega : ¬result > 255)] at h
        exact clear_flag_cy_spec _ f h

/-- Completion of the carry-restore step of `Cpu0.inr`/`Cpu0.dcr` yields a
flag byte whose carry equals the recorded carry. -/
theorem carry_restore_spec (carry f0 f : Nat) (hcar : carry = 0 ∨ carry = 1)
    (h : (if carry = 1 then Cpu0.set_flag f0 Flag.CY
          else if carry = 0 then Cpu0.clear_flag f0 Flag.CY
          else none) = some f) :
    check_flag f Flag.CY = carry := by
  rcases hcar with hc | hc
  · subst hc
    rw [if_neg (by decide), if_pos rfl] at h
    exact clear_flag_cy_spec f0 f h
  · subst hc
    rw [if_pos rfl] at h
    exact set_flag_cy_spec f0 f h

/-- Claim C1: the spec promises that every 16-bit address 0..65535 is in
bounds of the owned buffer, in particular 0xffff.  The buffer of
`Memory` in `cpu.rs` is `[u8; 0xffff]`, holding 65535 bytes, so address
0xfffe is its last valid index: `read_at`/`write_at` at 0xffff take the
out-of-bounds branch (a Rust index panic), although the struct's own
comment says the 8080 should have 65536 addresses.  The code, not the
claim, is wrong. -/
theorem memory_top_address_out_of_bounds :
    Cpu0.Memory.init.read_at 0xfffe = some 0 ∧
    Cpu0.Memory.init.read_at 0xffff = none ∧
    Cpu0.Memory.init.write_at 0xffff 0xab = none :=
  ⟨rfl, rfl, rfl⟩

/-- Claim C2, counterexample: dispatching the reserved opcode 0x08
returns the successful result `Ok(0)` with the machine state unchanged —
not a failing result identifying the opcode, refuting the claim. -/
theorem reserved_opcode_0x08_returns_ok :
    Cpu1.handle_op_code 0x08 cpu_ex = some (Cpu1.OpResult.ok 0, cpu_ex) :=
  rfl

/-- Claim C2, amended: in the dispatcher each of the twelve
unimplemented/reserved opcodes (0x08, 0x10, 0x18, 0x20, 0x28, 0x30,
0x38, 0xcb, 0xd9, 0xdd, 0xed, 0xfd) is a silent no-op: `handle_op_code`
returns `Ok(0)` and the machine state is exactly unchanged; no
error-carrying result is ever produced for them. -/
theorem reserved_opcodes_are_nops (cpu : Cpu1.Cpu) :
    Cpu1.handle_op_code 0x08 cpu = some (Cpu1.OpResult.ok 0, cpu) ∧
    Cpu1.handle_op_code 0x10 cpu = some (Cpu1.OpResult.ok 0, cpu) ∧
    Cpu1.handle_op_code 0x18 cpu = some (Cpu1.OpResult.ok 0, cpu) ∧
    Cpu1.handle_op_code 0x20 cpu = some (Cpu1.OpResult.ok 0, cpu) ∧
    Cpu1.handle_op_code 0x28 cpu = some (Cpu1.OpResult.ok 0, cpu) ∧
    Cpu1.handle_op_code 0x30 cpu = some (Cpu1.OpResult.ok 0, cpu) ∧
    Cpu1.handle_op_code 0x38 cpu = some (Cpu1.OpResult.ok 0, cpu) ∧
    Cpu1.handle_op_code 0xcb cpu = some (Cpu1.OpResult.ok 0, cpu) ∧
    Cpu1.handle_op_code 0xd9 cpu = some (Cpu1.OpResult.ok 0, cpu) ∧
    Cpu1.handle_op_code 0xdd cpu = some (Cpu1.OpResult.ok 0, cpu) ∧
    Cpu1.handle_op_code 0xed cpu = some (Cpu1.OpResult.ok 0, cpu) ∧
    Cpu1.handle_op_code 0xfd cpu = some (Cpu1.OpResult.ok 0, cpu) :=
  ⟨rfl, rfl, rfl, rfl, rfl, rfl, rfl, rfl, rfl, rfl, rfl, rfl⟩

/-- Claim C3, counterexample: `sub(0x00, 0x01)` returns 0xff with the
Sign and Parity flags set but the Carry flag clear (flag byte
0b10000100), although the minuend 0 is smaller than the subtrahend 1 —
refuting the claim that `sub` sets Carry exactly when minuend is smaller
than subtrahend. -/
theorem sub_borrow_counterexample :
    Cpu0.sub 0x00 0x01 0x00 = some (0xff, 0b10000100) ∧
    (0x00 : Nat) < 0x01 ∧
    check_flag 0b10000100 Flag.CY = 0 :=
  ⟨rfl, by decide, rfl⟩

/-- Claim C3, amended: for byte operands the signed intermediate of `sub`
never exceeds 255, so whenever `sub` completes it leaves the Carry flag
clear — `sub` never sets Carry; in particular `sub(0x00, 0x01)` returns
0xff with Sign set and Carry clear. -/
theorem sub_always_clears_carry :
    (∀ reg_1 reg_2 flags r f', reg_1 < 256 → reg_2 < 256 →
      Cpu0.sub reg_1 reg_2 flags = some (r, f') →
      check_flag f' Flag.CY = 0) ∧
    Cpu0.sub 0x00 0x01 0x00 = some (0xff, 0b10000100) ∧
    check_flag 0b10000100 Flag.S = 1 ∧
    check_flag 0b10000100 Flag.CY = 0 := by
  refine ⟨?_, rfl, rfl, rfl⟩
  intro x y flags r f' hx hy h
  rw [Cpu0.sub] at h
  split at h
  · exact absurd h (by simp)
  · rename_i f hs
    simp only [Option.some.injEq, Prod.mk.injEq] at h
    obtain ⟨-, hf⟩ := h
    subst hf
    exact set_flags_carry_clear ((x : Int) - (y : Int)) flags f (by omega) hs

/-- Claim C3 witness: the general carry statement applied at the concrete
input (0x00, 0x01) with an all-clear incoming flag byte. -/
theorem sub_always_clears_carry_witness :
    check_flag 0b10000100 Flag.CY = 0 :=
  sub_always_clears_carry.1 0 1 0 0xff 0b10000100 (by decide) (by decide) rfl

/-- Claim C7: whenever `inr` or `dcr` completes, the Carry flag of the
resulting flag byte equals the Carry flag of the incoming flag byte —
increment and decrement never affect Carry, even though they route
through the general add/sub flag computation. -/
theorem inr_dcr_preserve_carry :
    ∀ reg flags r f',
      (Cpu0.inr reg flags = some (r, f') →
        check_flag f' Flag.CY = check_flag flags Flag.CY) ∧
      (Cpu0.dcr reg flags = some (r, f') →
        check_flag f' Flag.CY = check_flag flags Flag.CY) := by
  intro reg flags r f'
  constructor
  · intro h
    simp only [Cpu0.inr] at h
    split at h
    · exact absurd h (by simp)
    · split at h
      · exact absurd h (by simp)
      · rename_i f hres
        simp only [Option.some.injEq, Prod.mk.injEq] at h
        obtain ⟨-, hf⟩ := h
        subst hf
        exact carry_restore_spec (check_flag flags Flag.CY) _ _ (check_flag_cy_cases flags) hres
  · intro h
    simp only [Cpu0.dcr] at h
    split at h
    · exact absurd h (by simp)
    · split at h
      · exact absurd h (by simp)
      · rename_i f hres
        simp only [Option.some.injEq, Prod.mk.injEq] at h
        obtain ⟨-, hf⟩ := h
        subst hf
        exact carry_restore_spec (check_flag flags Flag.CY) _ _ (check_flag_cy_cases flags) hres

/-- Claim C7 witness: the preservation statement applied at the concrete
inputs `inr(0x02)` and `dcr(0x02)` with an all-clear incoming flag
byte. -/
theorem inr_dcr_preserve_carry_witness :
    check_flag 4 Flag.CY = check_flag 0 Flag.CY ∧
    check_flag 0 Flag.CY = check_flag 0 Flag.CY :=
  ⟨(inr_dcr_preserve_carry 2 0 3 4).1 rfl,
   (inr_dcr_preserve_carry 2 0 1 0).2 rfl⟩

/-- Claim C4: for every byte pair and every stack-pointer value whose two
written cells are addressable (`2 ≤ sp` and `sp` within the buffer),
`pop` immediately after `push((hi, lo), sp, memory)` returns exactly
`(hi, lo)` and leaves the stack pointer at its value before the push. -/
theorem push_pop_roundtrip :
    ∀ hi lo sp (m : Cpu0.Memory), hi < 256 → lo < 256 → 2 ≤ sp → sp < 0xffff →
      ∃ sp1 m1, Cpu0.push (hi, lo) sp m = some (sp1, m1) ∧
        ∃ m2, Cpu0.pop sp1 m1 = some ((hi, lo), sp, m2) := by
  intro hi lo sp m hhi hlo hsp2 hsp
  have e1 : (sp + 65535) % 65536 = sp - 1 := by omega
  have e2 : (sp + 65534) % 65536 = sp - 2 := by omega
  have e3 : (sp - 2 + 2) % 65536 = sp := by omega
  have e4 : (sp - 2 + 1) % 65536 = sp - 1 := by omega
  have hne : (sp = sp - 1) = False := by simp; omega
  have hne2 : (sp - 1 = sp) = False := by simp; omega
  have hlt1 : sp - 1 < 0xffff := by omega
  have hmhi : hi % 256 = hi := Nat.mod_eq_of_lt hhi
  have hmlo : lo % 256 = lo := Nat.mod_eq_of_lt hlo
  refine ⟨sp - 2,
    ⟨fun x => if x = sp - 1 then lo % 256
      else if x = sp then hi % 256 else m.held_memory x⟩, ?_, ?_⟩
  · simp only [Cpu0.push, Cpu0.Memory.write_at, e1, e2, if_pos hsp, if_pos hlt1]
  · apply Exists.intro
    simp only [Cpu0.pop, Cpu0.Memory.read_at, Cpu0.Memory.write_at, e3, e4,
      if_pos hsp, if_pos hlt1, hne, hne2, if_false, if_true, if_pos rfl, hmhi, hmlo]
    rfl

/-- Claim C4 witness: the round trip applied at the byte pair
(0xd4, 0xc3) with the stack pointer at its initial 0x2400 over zeroed
memory. -/
theorem push_pop_roundtrip_witness :
    ∃ sp1 m1, Cpu0.push (0xd4, 0xc3) 0x2400 Cpu0.Memory.init = some (sp1, m1) ∧
      ∃ m2, Cpu0.pop sp1 m1 = some ((0xd4, 0xc3), 0x2400, m2) :=
  push_pop_roundtrip 0xd4 0xc3 0x2400 Cpu0.Memory.init
    (by decide) (by decide) (by decide) (by decide)

/-- Claim C5: `call` pushes the return address only when the jump will be
taken (a false condition leaves stack pointer and memory untouched and
returns nothing); concretely, dispatching the unconditional CALL opcode
0xcd with operand bytes at PC 0x0005 targeting 0xc3d4 pushes return
address 0x0007 (low byte at 0x23fe, high byte at 0x23ff), and a
subsequent unconditional RET (0xc9) restores PC to 0x0007 and the stack
pointer to its pre-call value 0x2400. -/
theorem call_pushes_return_address_only_when_taken :
    (∀ (address_bytes : Nat × Nat) (sp : Nat) (m : Cpu1.Memory) (ra : Nat),
      Cpu1.call address_bytes (some false) sp m ra = (none, sp, m)) ∧
    Cpu1.handle_op_code 0xcd call_scenario_start =
      some (Cpu1.OpResult.ok 0, call_scenario_after_call) ∧
    call_scenario_after_call.pc = 0xc3d4 ∧
    call_scenario_after_call.sp = 0x23fe ∧
    call_scenario_after_call.memory.read_at 0x23fe = 0x07 ∧
    call_scenario_after_call.memory.read_at 0x23ff = 0x00 ∧
    Cpu1.handle_op_code 0xc9 call_scenario_after_call =
      some (Cpu1.OpResult.ok 0, call_scenario_after_ret) ∧
    call_scenario_after_ret.pc = 0x0007 ∧
    call_scenario_after_ret.sp = 0x2400 :=
  ⟨fun _ _ _ _ => rfl, rfl, rfl, rfl, rfl, rfl, rfl, rfl, rfl⟩

/-- Claim C6: `jmp` composes its operand bytes in little-endian order
(low byte first) into `256 * high + low`, returns the composed address
when the condition is absent or true, and returns nothing when the
condition is false; in particular `jmp((0xd4, 0xc3), None)` is
`Some(0xc3d4)` and `jmp((0xd4, 0xc3), Some(false))` is `None`. -/
theorem jmp_composes_little_endian :
    (∀ b1, b1 < 256 → ∀ b2, b2 < 256 →
      jmp (b1, b2) none = some (256 * b2 + b1) ∧
      jmp (b1, b2) (some true) = some (256 * b2 + b1) ∧
      jmp (b1, b2) (some false) = none) ∧
    jmp (0xd4, 0xc3) none = some 0xc3d4 ∧
    jmp (0xd4, 0xc3) (some false) = none := by
  refine ⟨fun b1 hb1 b2 hb2 => ?_, rfl, rfl⟩
  have hp : pair_registers b2 b1 = 256 * b2 + b1 := pair_registers_eq b2 b1 hb1
  exact ⟨by simp [jmp, hp], by simp [jmp, hp], rfl⟩

/-- Claim C6 witness: the general statement applied at the concrete
operand bytes 0xd4 and 0xc3. -/
theorem jmp_composes_little_endian_witness :
    jmp (0xd4, 0xc3) none = some (256 * 0xc3 + 0xd4) ∧
    jmp (0xd4, 0xc3) (some true) = some (256 * 0xc3 + 0xd4) ∧
    jmp (0xd4, 0xc3) (some false) = none :=
  jmp_composes_little_endian.1 0xd4 (by decide) 0xc3 (by decide)

/-- Claim C8: dispatching HALT (0x76) reports the sentinel 255 as a
successful result (`Ok(255)`, not an error), the sentinel is distinct
from every legal additional-byte count 0, 1, 2, and the machine state is
unchanged. -/
theorem halt_returns_sentinel (cpu : Cpu1.Cpu) :
    Cpu1.handle_op_code 0x76 cpu = some (Cpu1.OpResult.ok 255, cpu) ∧
    (255 : Nat) ≠ 0 ∧ (255 : Nat) ≠ 1 ∧ (255 : Nat) ≠ 2 :=
  ⟨rfl, by decide, by decide, by decide⟩

/-- Claim C9: with shift register 0b0001111111100000 and shift amount 3,
the claimed window formula `(register >> (8 - amount)) & 0xff` gives
0xff — the value the repository's own tests `test_shift` and
`test_handle_io` assert — but `read_port` computes the offset as
`shift_amount >> 5` (the top three bits instead of the low three), so it
returns `register >> 8`, which is 0x1f.  The code, not the claim, is
wrong. -/
theorem shift_result_read_diverges_from_window_formula :
    read_port Port.SHFTIN shift_test_hardware = some 0x1f ∧
    handle_io 0xdb shift_test_hardware 3 0 = some (some 0x1f, shift_test_hardware) ∧
    (shift_test_hardware.shift_register >>> (8 - 3)) % 256 = 0xff ∧
    (0x1f : Nat) ≠ 0xff :=
  ⟨rfl, rfl, by decide, by decide⟩

/-- Claim C10: `handle_io` is total exactly on the documented inputs.
For `OUT` (0xd3) it accepts exactly port bytes 2 through 6, writes the
accumulator into the named port (port 4 shifting it into the shift
register) and returns no value; any other port byte panics.  For `IN`
(0xdb) it accepts exactly port bytes 1 through 3 and returns the port's
current value, leaving the hardware unchanged; any other port byte —
including the explicitly rejected port 0 — panics.  Every opcode other
than 0xd3 and 0xdb panics. -/
theorem handle_io_totality :
    (∀ (hw : Hardware) (a : Nat),
      handle_io 0xd3 hw 2 a =
        some (none, { hw with ports := { hw.ports with shift_amount := a } }) ∧
      handle_io 0xd3 hw 3 a =
        some (none, { hw with ports := { hw.ports with sound_1 := a } }) ∧
      handle_io 0xd3 hw 4 a =
        some (none, { hw with shift_register :=
          ((a <<< 8) ||| (hw.shift_register >>> 8)) % 65536 }) ∧
      handle_io 0xd3 hw 5 a =
        some (none, { hw with ports := { hw.ports with sound_2 := a } }) ∧
      handle_io 0xd3 hw 6 a =
        some (none, { hw with ports := { hw.ports with watchdog := a } })) ∧
    (∀ (hw : Hardware) (a pb : Nat), pb ≠ 2 → pb ≠ 3 → pb ≠ 4 → pb ≠ 5 → pb ≠ 6 →
      handle_io 0xd3 hw pb a = none) ∧
    (∀ (hw : Hardware) (a : Nat),
      handle_io 0xdb hw 1 a = some (some hw.ports.input_1, hw) ∧
      handle_io 0xdb hw 2 a = some (some hw.ports.input_2, hw) ∧
      handle_io 0xdb hw 3 a =
        some (some ((hw.shift_register >>> (8 - hw.ports.shift_amount >>> 5)) % 256), hw)) ∧
    (∀ (hw : Hardware) (a pb : Nat), pb ≠ 1 → pb ≠ 2 → pb ≠ 3 →
      handle_io 0xdb hw pb a = none) ∧
    (∀ (op : Nat) (hw : Hardware) (pb a : Nat), op ≠ 0xd3 → op ≠ 0xdb →
      handle_io op hw pb a = none) := by
  refine ⟨fun hw a => ⟨rfl, rfl, rfl, rfl, rfl⟩, ?_, fun hw a => ⟨rfl, rfl, rfl⟩, ?_, ?_⟩
  · intro hw a pb h2 h3 h4 h5 h6
    simp [handle_io, h2, h3, h4, h5, h6]
  · intro hw a pb h1 h2 h3
    by_cases h0 : pb = 0
    · subst h0
      rfl
    · simp [handle_io, h0, h1, h2, h3]
  · intro op hw pb a hd3 hdb
    simp [handle_io, hd3, hdb]

/-- Claim C10 witness: the rejection statements applied at concrete
inputs — `OUT` to port 9, `IN` from port 0, and opcode 0x00. -/
theorem handle_io_totality_witness :
    handle_io 0xd3 Hardware.init 9 0 = none ∧
    handle_io 0xdb Hardware.init 0 0 = none ∧
    handle_io 0x00 Hardware.init 0 0 = none := by
  obtain ⟨p1, p2, p3, p4, p5⟩ := handle_io_totality
  exact ⟨p2 Hardware.init 0 9 (by decide) (by decide) (by decide) (by decide) (by decide),
    p4 Hardware.init 0 0 (by decide) (by decide) (by decide),
    p5 0x00 Hardware.init 0 0 (by decide) (by decide)⟩

end Emu8080
